import Mathlib

/-!
Verification of the data-collector lifecycle logic of the
`terraform-provider-dc-apigee` repository (`provider/resource_data_collector.go`).

The Go code is shallowly embedded: the Terraform `ResourceData` bag is a record
of the schema's string fields plus the resource id; HTTP traffic is an oracle
`HttpRequest → Except String HttpResponse` (a `.error` models a transport
failure of `client.Do`); JSON payloads and decoded JSON bodies are association
lists from string keys to string values; `diag.Diagnostics` is `Option String`
(`none` = no diagnostics, `some msg` = `diag.Errorf` with that message).
Each lifecycle function mutates `d` in place in Go, so here it returns the new
`ResourceData` paired with the diagnostics.
-/

namespace DCApigee

/-- The Terraform resource state bag (`*schema.ResourceData`) restricted to the
fields this resource touches: the id (`d.Id()` / `d.SetId`) and the schema
fields `name`, `description`, `type`, plus `project_id` which only the import
function writes. -/
structure ResourceData where
  id : String
  name : String
  description : String
  type : String
  project_id : String
  deriving Repr, DecidableEq

/-- An outgoing HTTP request as the Go code builds it: method, URL, the two
headers it always sets, and an optional JSON object payload (the Go code only
ever marshals a `map[string]string`, rendered here as an association list). -/
structure HttpRequest where
  method : String
  url : String
  headers : List (String × String)
  body : Option (List (String × String))
  deriving Repr, DecidableEq

/-- An HTTP response: `statusCode` is `resp.StatusCode`, `status` the status
line `resp.Status`, and `body` the JSON object the response body decodes to
(`none` models a body that fails `json.Decode`).  Values are strings, matching
the string-typed schema fields the code stores them into. -/
structure HttpResponse where
  statusCode : Nat
  status : String
  body : Option (List (String × String))
  deriving Repr, DecidableEq

/-- The pluggable HTTP transport: `client.Do`, with `.error` a transport
failure. -/
def Client : Type := HttpRequest → Except String HttpResponse

/-- The headers every request in the file carries (lines 151-152 etc.):
`Content-Type: application/json` and `Authorization: Bearer <token>`. -/
def authHeaders (token : String) : List (String × String) :=
  [("Content-Type", "application/json"), ("Authorization", "Bearer " ++ token)]

/-- URL of the data-collector collection for an organization:
`https://apigee.googleapis.com/v1/organizations/{org}/datacollectors`. -/
def collectionURL (org : String) : String :=
  "https://apigee.googleapis.com/v1/organizations/" ++ org ++ "/datacollectors"

/-- URL of one data collector:
`https://apigee.googleapis.com/v1/organizations/{org}/datacollectors/{name}`. -/
def collectorURL (org name : String) : String :=
  collectionURL org ++ "/" ++ name

/-- The create payload (lines 137-141): `{name, description, type}` from the
resource data. -/
def createPayload (d : ResourceData) : List (String × String) :=
  [("name", d.name), ("description", d.description), ("type", d.type)]

/-- The POST request Create sends (line 147).  NOTE: the source interpolates
the literal string `"ORG"` into the URL, not the configured organization:
`fmt.Sprintf(".../organizations/%s/datacollectors", "ORG")`. -/
def createRequest (token : String) (d : ResourceData) : HttpRequest :=
  { method := "POST"
    url := collectionURL "ORG"
    headers := authHeaders token
    body := some (createPayload d) }

/-- `resourceDataCollectorCreateFunc` (lines 130-166): marshal
`{name, description, type}`, POST it, fail on any transport error or any
status other than 201 Created, and only then `d.SetId(name)`. -/
def resourceDataCollectorCreateFunc (client : Client) (token : String)
    (d : ResourceData) : ResourceData × Option String :=
  match client (createRequest token d) with
  | .error e => (d, some ("failed to operate on data collector: " ++ e))
  | .ok resp =>
    if resp.statusCode ≠ 201 then
      (d, some ("failed to create data collector: " ++ resp.status))
    else
      ({ d with id := d.name }, none)

/-- The GET request Read sends (line 182): the URL uses the configured `org`
and the current id. -/
def readRequest (token org name : String) : HttpRequest :=
  { method := "GET"
    url := collectorURL org name
    headers := authHeaders token
    body := none }

/-- Store a decoded JSON object into the three schema fields (lines 208-216):
`d.Set("name", data["name"])` and likewise for `description` and `type`.
A key missing from the object is Go's `nil`, which `d.Set` stores as the
string zero value `""`. -/
def setFromData (d : ResourceData) (data : List (String × String)) : ResourceData :=
  { d with
    name := ((data.lookup "name").getD "")
    description := ((data.lookup "description").getD "")
    type := ((data.lookup "type").getD "") }

/-- `resourceDataCollectorRead` (lines 177-219): GET the collector named by
`d.Id()`; 404 clears the id and succeeds, any other non-200 status is an
error carrying `resp.Status`, 200 decodes the body and populates the
`name`, `description`, `type` fields from it. -/
def resourceDataCollectorRead (client : Client) (token org : String)
    (d : ResourceData) : ResourceData × Option String :=
  match client (readRequest token org d.id) with
  | .error e => (d, some ("failed to operate on data collector: " ++ e))
  | .ok resp =>
    if resp.statusCode ≠ 200 then
      if resp.statusCode = 404 then
        ({ d with id := "" }, none)
      else
        (d, some ("failed to read data collector: " ++ resp.status))
    else
      match resp.body with
      | none => (d, some "failed to operate on data collector: json decode error")
      | some data => (setFromData d data, none)

/-- The update payload (lines 236-239): `{description, type}` only; the
`name` key is not part of it. -/
def updatePayload (d : ResourceData) : List (String × String) :=
  [("description", d.description), ("type", d.type)]

/-- The PUT request Update sends (line 245).  As in Create, the source
interpolates the literal `"ORG"` for the organization; the collector name
comes from the resource data. -/
def updateRequest (token : String) (d : ResourceData) : HttpRequest :=
  { method := "PUT"
    url := collectorURL "ORG" d.name
    headers := authHeaders token
    body := some (updatePayload d) }

/-- `resourceDataCollectorUpdate` (lines 229-263): PUT `{description, type}`;
any status other than 200 is an error carrying `resp.Status`; the resource
data is not modified. -/
def resourceDataCollectorUpdate (client : Client) (token : String)
    (d : ResourceData) : ResourceData × Option String :=
  match client (updateRequest token d) with
  | .error e => (d, some ("failed to operate on data collector: " ++ e))
  | .ok resp =>
    if resp.statusCode ≠ 200 then
      (d, some ("failed to update data collector: " ++ resp.status))
    else
      (d, none)

/-- The DELETE request Delete sends (line 278).  Again the literal `"ORG"`
stands where the organization belongs; the name is `d.Id()`. -/
def deleteRequest (token : String) (d : ResourceData) : HttpRequest :=
  { method := "DELETE"
    url := collectorURL "ORG" d.id
    headers := authHeaders token
    body := none }

/-- `resourceDataCollectorDeleteFunc` (lines 273-297): DELETE the collector
named by `d.Id()`; any status other than 204 No Content is an error carrying
`resp.Status`; on 204 the id is cleared with `d.SetId("")`. -/
def resourceDataCollectorDeleteFunc (client : Client) (token : String)
    (d : ResourceData) : ResourceData × Option String :=
  match client (deleteRequest token d) with
  | .error e => (d, some ("failed to operate on data collector: " ++ e))
  | .ok resp =>
    if resp.statusCode ≠ 204 then
      (d, some ("failed to delete data collector: " ++ resp.status))
    else
      ({ d with id := "" }, none)

/-- Split a character list at every slash, keeping empty segments: the
semantics of Go's `strings.Split(s, "/")` (which this models structurally so
that it evaluates in the kernel). -/
def splitCharsOnSlash : List Char → List (List Char)
  | [] => [[]]
  | c :: cs =>
    if c = '/' then [] :: splitCharsOnSlash cs
    else
      match splitCharsOnSlash cs with
      | [] => [[c]]
      | s :: ss => (c :: s) :: ss

/-- `strings.Split(s, "/")` on strings: split at every `/`, never empty
(the empty string yields `[""]`, as in Go). -/
def splitSlash (s : String) : List String :=
  (splitCharsOnSlash s.data).map String.mk

/-- The import-id parse step (lines 318-325): split the id on `/`; exactly two
segments bind `(projectID, name)`, any other count is the malformed-id error. -/
def importParse (id : String) : Except String (String × String) :=
  match splitSlash id with
  | [projectID, name] => .ok (projectID, name)
  | _ => .error ("unexpected format of ID (" ++ id ++ "), expected project_id/name")

/-- `resourceDataCollectorImportFunc` (lines 312-368): parse the composite id,
store `project_id` and `name`, GET the collector (configured `org`, parsed
name); 404 clears the id and returns the resource successfully, any other
non-200 status is an error carrying `resp.Status`, 200 decodes the body and
populates the fields, returning the single-element resource list. -/
def resourceDataCollectorImportFunc (client : Client) (token org : String)
    (d : ResourceData) : ResourceData × Except String (List ResourceData) :=
  match importParse d.id with
  | .error e => (d, .error e)
  | .ok (projectID, name) =>
    let d1 : ResourceData := { d with project_id := projectID, name := name }
    match client (readRequest token org name) with
    | .error e => (d1, .error ("failed to operate on data collector: " ++ e))
    | .ok resp =>
      if resp.statusCode ≠ 200 then
        if resp.statusCode = 404 then
          let d2 : ResourceData := { d1 with id := "" }
          (d2, .ok [d2])
        else
          (d1, .error ("failed to read data collector: " ++ resp.status))
      else
        match resp.body with
        | none => (d1, .error "failed to import data collector: json decode error")
        | some data =>
          let d2 : ResourceData := setFromData d1 data
          (d2, .ok [d2])

/-! Concrete resource data, transports and responses used to evaluate the
lifecycle functions at specific inputs. -/

/-- The spec's concrete scenario: `{name:"dc1", description:"test",
type:"analytics"}`, already holding id `"dc1"`. -/
def sampleD : ResourceData :=
  { id := "dc1", name := "dc1", description := "test", type := "analytics"
    project_id := "" }

/-- Resource data whose id is the slash-free import id `"bad-id"`. -/
def badIdD : ResourceData :=
  { id := "bad-id", name := "", description := "", type := "", project_id := "" }

/-- Resource data whose id is the composite import id `"projA/collector1"`. -/
def importD : ResourceData :=
  { id := "projA/collector1", name := "", description := "", type := ""
    project_id := "" }

/-- A transport that answers every request with the given response. -/
def okClient (resp : HttpResponse) : Client := fun _ => .ok resp

/-- A transport that fails every request at the network level. -/
def errClient (e : String) : Client := fun _ => .error e

/-- A bodiless 201 Created response. -/
def resp201 : HttpResponse := { statusCode := 201, status := "201 Created", body := none }

/-- A bodiless 404 Not Found response. -/
def resp404 : HttpResponse := { statusCode := 404, status := "404 Not Found", body := none }

/-- A bodiless 204 No Content response. -/
def resp204 : HttpResponse := { statusCode := 204, status := "204 No Content", body := none }

/-- A bodiless 500 response. -/
def resp500 : HttpResponse :=
  { statusCode := 500, status := "500 Internal Server Error", body := none }

/-- A 200 response whose JSON body echoes exactly the payload Create sent for
`sampleD`, as the spec says the API does. -/
def respEcho : HttpResponse :=
  { statusCode := 200, status := "200 OK", body := some (createPayload sampleD) }

/-! The claims. -/

/-- C1: the claim says every lifecycle operation builds its URL from the
configured organization name together with the collector's name.  The code
does not: Create, Update and Delete interpolate the literal string `"ORG"`
(source lines 147, 245, 278), so with the organization configured as
`"myorg"` and collector `"dc1"` only Read (and Import's read) address
`.../organizations/myorg/...`; the other three address
`.../organizations/ORG/...`. -/
theorem c1_create_update_delete_ignore_configured_org :
    (createRequest "tok" sampleD).url
      = "https://apigee.googleapis.com/v1/organizations/ORG/datacollectors"
  ∧ (updateRequest "tok" sampleD).url
      = "https://apigee.googleapis.com/v1/organizations/ORG/datacollectors/dc1"
  ∧ (deleteRequest "tok" sampleD).url
      = "https://apigee.googleapis.com/v1/organizations/ORG/datacollectors/dc1"
  ∧ (readRequest "tok" "myorg" "dc1").url
      = "https://apigee.googleapis.com/v1/organizations/myorg/datacollectors/dc1"
  ∧ (∀ (token : String) (d : ResourceData), (createRequest token d).url = collectionURL "ORG")
  ∧ (∀ (token : String) (d : ResourceData), (updateRequest token d).url = collectorURL "ORG" d.name)
  ∧ (∀ (token : String) (d : ResourceData), (deleteRequest token d).url = collectorURL "ORG" d.id) :=
  ⟨rfl, rfl, rfl, rfl, fun _ _ => rfl, fun _ _ => rfl, fun _ _ => rfl⟩

/-- C2: Import splits the id on `/` and parses successfully exactly when the
split has two segments, binding the first segment to the project field and
the second to the name; for any other segment count every import run returns
the malformed-id error without consulting the HTTP transport at all. -/
theorem c2_import_id_parsing (id : String) :
    ((∃ pn, importParse id = Except.ok pn) ↔ (splitSlash id).length = 2)
  ∧ (∀ p n, splitSlash id = [p, n] → importParse id = Except.ok (p, n))
  ∧ ((splitSlash id).length ≠ 2 →
      ∀ (client : Client) (token org : String) (d : ResourceData), d.id = id →
        resourceDataCollectorImportFunc client token org d
          = (d, Except.error
              ("unexpected format of ID (" ++ id ++ "), expected project_id/name"))) := by
  rcases h : splitSlash id with _ | ⟨a, tl⟩
  · refine ⟨by simp [importParse, h], ?_, ?_⟩
    · intro p n hpn
      cases hpn
    · intro _ client token org d hd
      simp [resourceDataCollectorImportFunc, importParse, hd, h]
  · rcases tl with _ | ⟨b, tl2⟩
    · refine ⟨by simp [importParse, h], ?_, ?_⟩
      · intro p n hpn
        cases hpn
      · intro _ client token org d hd
        simp [resourceDataCollectorImportFunc, importParse, hd, h]
    · rcases tl2 with _ | ⟨c, rest⟩
      · refine ⟨by simp [importParse, h], ?_, ?_⟩
        · intro p n hpn
          injection hpn with h1 h2
          injection h2 with h2 _
          subst h1
          subst h2
          simp [importParse, h]
        · intro hlen
          simp at hlen
      · refine ⟨by simp [importParse, h], ?_, ?_⟩
        · intro p n hpn
          cases hpn
        · intro _ client token org d hd
          simp [resourceDataCollectorImportFunc, importParse, hd, h]

/-- C2 witness: `"projA/collector1"` parses into project `"projA"` and name
`"collector1"`, and importing `"bad-id"` fails with the malformed-id error
under a transport that would reject any request it saw. -/
theorem c2_import_id_parsing_witness :
    importParse "projA/collector1" = Except.ok ("projA", "collector1")
  ∧ resourceDataCollectorImportFunc (errClient "unreachable") "tok" "myorg" badIdD
      = (badIdD, Except.error
          ("unexpected format of ID (" ++ "bad-id" ++ "), expected project_id/name")) :=
  ⟨(c2_import_id_parsing "projA/collector1").2.1 "projA" "collector1" rfl,
   (c2_import_id_parsing "bad-id").2.2 (by decide)
     (errClient "unreachable") "tok" "myorg" badIdD rfl⟩

/-- C3: given any response, Create succeeds iff its status code is 201; on
201 it sets the id to the spec's name; on any other status it returns the
error message carrying the HTTP status text. -/
theorem c3_create_status_discipline (client : Client) (token : String)
    (d : ResourceData) (resp : HttpResponse)
    (hresp : client (createRequest token d) = Except.ok resp) :
    ((resourceDataCollectorCreateFunc client token d).2 = none ↔ resp.statusCode = 201)
  ∧ (resp.statusCode = 201 →
      resourceDataCollectorCreateFunc client token d = ({ d with id := d.name }, none))
  ∧ (resp.statusCode ≠ 201 →
      resourceDataCollectorCreateFunc client token d
        = (d, some ("failed to create data collector: " ++ resp.status))) := by
  by_cases h : resp.statusCode = 201 <;>
    simp [resourceDataCollectorCreateFunc, hresp, h]

/-- C3 witness: a 201 answer to the concrete scenario sets the identity to
`"dc1"`. -/
theorem c3_create_status_discipline_witness :
    resourceDataCollectorCreateFunc (okClient resp201) "tok" sampleD
      = ({ sampleD with id := sampleD.name }, none) :=
  (c3_create_status_discipline (okClient resp201) "tok" sampleD resp201 rfl).2.1 rfl

/-- C4: given any response to Read, status 200 with a decoded JSON body
populates `name`, `description` and `type` from that body; status 404 clears
the id and succeeds with no error; any other status returns the read-failure
error carrying the HTTP status text. -/
theorem c4_read_status_discipline (client : Client) (token org : String)
    (d : ResourceData) (resp : HttpResponse)
    (hresp : client (readRequest token org d.id) = Except.ok resp) :
    (resp.statusCode = 200 → ∀ data, resp.body = some data →
      resourceDataCollectorRead client token org d
        = ({ d with
              name := ((data.lookup "name").getD "")
              description := ((data.lookup "description").getD "")
              type := ((data.lookup "type").getD "") }, none))
  ∧ (resp.statusCode = 404 →
      resourceDataCollectorRead client token org d = ({ d with id := "" }, none))
  ∧ (resp.statusCode ≠ 200 → resp.statusCode ≠ 404 →
      resourceDataCollectorRead client token org d
        = (d, some ("failed to read data collector: " ++ resp.status))) := by
  refine ⟨?_, ?_, ?_⟩
  · intro h200 data hbody
    simp [resourceDataCollectorRead, hresp, h200, hbody, setFromData]
  · intro h404
    simp [resourceDataCollectorRead, hresp, h404]
  · intro h200 h404
    simp [resourceDataCollectorRead, hresp, h200, h404]

/-- C4 witness: reading `sampleD` against a server that answers 404 clears the
id and reports no error. -/
theorem c4_read_status_discipline_witness :
    resourceDataCollectorRead (okClient resp404) "tok" "myorg" sampleD
      = ({ sampleD with id := "" }, none) :=
  (c4_read_status_discipline (okClient resp404) "tok" "myorg" sampleD resp404 rfl).2.1 rfl

/-- C5: for every spec the update payload holds exactly the keys
`description` and `type` with the spec's values, and the `name` key is never
present. -/
theorem c5_update_payload_excludes_name (token : String) (d : ResourceData) :
    (updateRequest token d).body = some [("description", d.description), ("type", d.type)]
  ∧ (updatePayload d).map Prod.fst = ["description", "type"]
  ∧ (updatePayload d).lookup "description" = some d.description
  ∧ (updatePayload d).lookup "type" = some d.type
  ∧ (updatePayload d).lookup "name" = none :=
  ⟨rfl, rfl, rfl, rfl, rfl⟩

/-- C6: given any response, Delete succeeds iff its status code is 204; on
204 it clears the local id to the empty string; on any other status it
returns the delete-failure error carrying the HTTP status text and leaves the
resource data, id included, unchanged. -/
theorem c6_delete_status_discipline (client : Client) (token : String)
    (d : ResourceData) (resp : HttpResponse)
    (hresp : client (deleteRequest token d) = Except.ok resp) :
    ((resourceDataCollectorDeleteFunc client token d).2 = none ↔ resp.statusCode = 204)
  ∧ (resp.statusCode = 204 →
      resourceDataCollectorDeleteFunc client token d = ({ d with id := "" }, none))
  ∧ (resp.statusCode ≠ 204 →
      resourceDataCollectorDeleteFunc client token d
        = (d, some ("failed to delete data collector: " ++ resp.status))) := by
  by_cases h : resp.statusCode = 204 <;>
    simp [resourceDataCollectorDeleteFunc, hresp, h]

/-- C6 witness: deleting `"dc1"` against a 204 answer clears the id. -/
theorem c6_delete_status_discipline_witness :
    resourceDataCollectorDeleteFunc (okClient resp204) "tok" sampleD
      = ({ sampleD with id := "" }, none) :=
  (c6_delete_status_discipline (okClient resp204) "tok" sampleD resp204 rfl).2.1 rfl

/-- C7: when the composite id parses and the subsequent read answers 404,
Import returns successfully with the id cleared to the empty string rather
than failing. -/
theorem c7_import_404_empty_state (client : Client) (token org : String)
    (d : ResourceData) (p n : String) (resp : HttpResponse)
    (hparse : importParse d.id = Except.ok (p, n))
    (hresp : client (readRequest token org n) = Except.ok resp)
    (h404 : resp.statusCode = 404) :
    resourceDataCollectorImportFunc client token org d
      = ({ d with project_id := p, name := n, id := "" },
         Except.ok [{ d with project_id := p, name := n, id := "" }]) := by
  simp [resourceDataCollectorImportFunc, hparse, hresp, h404]

/-- C7 witness: importing `"projA/collector1"` against a server answering 404
succeeds and yields the cleared identity. -/
theorem c7_import_404_empty_state_witness :
    resourceDataCollectorImportFunc (okClient resp404) "tok" "myorg" importD
      = ({ importD with project_id := "projA", name := "collector1", id := "" },
         Except.ok [{ importD with project_id := "projA", name := "collector1", id := "" }]) :=
  c7_import_404_empty_state (okClient resp404) "tok" "myorg" importD "projA" "collector1"
    resp404 rfl rfl rfl

/-- C8: if Create succeeds and the subsequent Read answers 200 with a JSON
body equal to the payload Create sent, the state Read produces carries the
spec's `name`, `description` and `type`. -/
theorem c8_create_read_roundtrip (c1 c2 : Client) (token org : String)
    (d : ResourceData) (resp2 : HttpResponse)
    (hcreate : (resourceDataCollectorCreateFunc c1 token d).2 = none)
    (hresp2 : c2 (readRequest token org (resourceDataCollectorCreateFunc c1 token d).1.id)
        = Except.ok resp2)
    (h200 : resp2.statusCode = 200)
    (hbody : resp2.body = some (createPayload d)) :
    (resourceDataCollectorRead c2 token org
        (resourceDataCollectorCreateFunc c1 token d).1).2 = none
  ∧ (resourceDataCollectorRead c2 token org
        (resourceDataCollectorCreateFunc c1 token d).1).1.name = d.name
  ∧ (resourceDataCollectorRead c2 token org
        (resourceDataCollectorCreateFunc c1 token d).1).1.description = d.description
  ∧ (resourceDataCollectorRead c2 token org
        (resourceDataCollectorCreateFunc c1 token d).1).1.type = d.type := by
  rcases hc : c1 (createRequest token d) with e | resp1
  · simp [resourceDataCollectorCreateFunc, hc] at hcreate
  · by_cases h1 : resp1.statusCode = 201
    · have hres : resourceDataCollectorCreateFunc c1 token d = ({ d with id := d.name }, none) := by
        simp [resourceDataCollectorCreateFunc, hc, h1]
      rw [hres] at hresp2 ⊢
      simp [resourceDataCollectorRead, hresp2, h200, hbody, setFromData, createPayload,
        List.lookup]
    · simp [resourceDataCollectorCreateFunc, hc, h1] at hcreate

/-- C8 witness: the spec's concrete scenario — create `{name:"dc1",
description:"test", type:"analytics"}`, get 201, then read back an echo of
the create payload with 200 — reproduces the spec's fields. -/
theorem c8_create_read_roundtrip_witness :
    (resourceDataCollectorRead (okClient respEcho) "tok" "myorg"
        (resourceDataCollectorCreateFunc (okClient resp201) "tok" sampleD).1).2 = none
  ∧ (resourceDataCollectorRead (okClient respEcho) "tok" "myorg"
        (resourceDataCollectorCreateFunc (okClient resp201) "tok" sampleD).1).1.name
      = sampleD.name
  ∧ (resourceDataCollectorRead (okClient respEcho) "tok" "myorg"
        (resourceDataCollectorCreateFunc (okClient resp201) "tok" sampleD).1).1.description
      = sampleD.description
  ∧ (resourceDataCollectorRead (okClient respEcho) "tok" "myorg"
        (resourceDataCollectorCreateFunc (okClient resp201) "tok" sampleD).1).1.type
      = sampleD.type :=
  c8_create_read_roundtrip (okClient resp201) (okClient respEcho) "tok" "myorg" sampleD
    respEcho rfl rfl rfl rfl

/-- C9: whenever Create returns an error — transport failure or any non-201
status — the resource data is returned unchanged: the id is assigned only
after the 201 check passes. -/
theorem c9_create_failure_atomic (client : Client) (token : String)
    (d : ResourceData) (e : String)
    (herr : (resourceDataCollectorCreateFunc client token d).2 = some e) :
    (resourceDataCollectorCreateFunc client token d).1 = d := by
  rcases hc : client (createRequest token d) with err | resp
  · simp [resourceDataCollectorCreateFunc, hc]
  · by_cases h : resp.statusCode = 201
    · simp [resourceDataCollectorCreateFunc, hc, h] at herr
    · simp [resourceDataCollectorCreateFunc, hc, h]

/-- C9 witness: a transport-level failure leaves the sample resource data
untouched. -/
theorem c9_create_failure_atomic_witness :
    (resourceDataCollectorCreateFunc (errClient "connection refused") "tok" sampleD).1
      = sampleD :=
  c9_create_failure_atomic (errClient "connection refused") "tok" sampleD
    ("failed to operate on data collector: " ++ "connection refused") rfl

/-- C10: a 404 answer to Read clears the id to the empty string inside the
operation itself, returns no error, and leaves `name`, `description` and
`type` untouched. -/
theorem c10_read_404_clears_only_id (client : Client) (token org : String)
    (d : ResourceData) (resp : HttpResponse)
    (hresp : client (readRequest token org d.id) = Except.ok resp)
    (h404 : resp.statusCode = 404) :
    resourceDataCollectorRead client token org d = ({ d with id := "" }, none)
  ∧ (resourceDataCollectorRead client token org d).1.name = d.name
  ∧ (resourceDataCollectorRead client token org d).1.description = d.description
  ∧ (resourceDataCollectorRead client token org d).1.type = d.type := by
  have h : resourceDataCollectorRead client token org d = ({ d with id := "" }, none) := by
    simp [resourceDataCollectorRead, hresp, h404]
  exact ⟨h, by rw [h], by rw [h], by rw [h]⟩

/-- C10 witness: reading a resource whose id the server reports 404 clears
exactly the id. -/
theorem c10_read_404_clears_only_id_witness :
    resourceDataCollectorRead (okClient resp404) "t2" "otherorg" badIdD
      = ({ badIdD with id := "" }, none) :=
  (c10_read_404_clears_only_id (okClient resp404) "t2" "otherorg" badIdD resp404 rfl rfl).1

end DCApigee
